import Mathlib

/-!
Verification of the chunk-extraction core of vanir's `parser.py`:
strategy resolution (`is_supported_type`), provider invocation,
affected-line-range filtering, and chunk assembly (`Parser`).

The module under src/ is a facade over two collaborators that live
elsewhere in the repository: `language_parsers` (registry + provider)
and `signature` (chunk assembly).  Those collaborators are modelled
from the spec; `parser.py` itself is embedded faithfully.
-/

namespace Vanir

/-- Handle identifying which registered parsing strategy claims a file. -/
inductive StrategyHandle where
  | cpp
  | java
deriving DecidableEq, Repr

/-- Raw span of one function as reported by a language parser provider:
an inclusive 1-indexed line extent plus an opaque payload the core never
inspects. -/
structure RawFunctionSpan where
  startLine : Int
  endLine : Int
  payload : String
deriving DecidableEq, Repr

/-- Raw per-line token data for the whole file (opaque to the core). -/
structure RawLineData where
  payload : String
deriving DecidableEq, Repr

/-- A recoverable syntax issue reported by the provider; carries no
control-flow significance beyond being surfaced. -/
structure ParseDiagnostic where
  message : String
deriving DecidableEq, Repr

/-- Result of one provider invocation as consumed by `Parser.__init__`:
the field names `function_chunks`, `line_chunk` and `parse_errors` mirror
the fields the source reads from `language_parsers.parse_file`'s result. -/
structure ParseOutcome where
  function_chunks : List RawFunctionSpan
  line_chunk : RawLineData
  parse_errors : List ParseDiagnostic
deriving DecidableEq, Repr

/-- Content of a file as seen by the provider: the function spans, line
data and diagnostics the provider would report for the whole file. -/
structure FileContent where
  allFunctionSpans : List RawFunctionSpan
  lineData : RawLineData
  diagnostics : List ParseDiagnostic
deriving DecidableEq, Repr

/-- The two fatal conditions of construction (spec §7): no strategy claims
the file, or the file's bytes cannot be obtained (`StatusNotOk` in the
source's docstring). -/
inductive ParserError where
  | UnsupportedFileType
  | StatusNotOk
deriving DecidableEq, Repr

instance instDecEqExcept {ε α : Type} [DecidableEq ε] [DecidableEq α] :
    DecidableEq (Except ε α) := fun a b =>
  match a, b with
  | .error e1, .error e2 =>
    if h : e1 = e2 then .isTrue (by rw [h]) else
      .isFalse (fun hc => h (Except.error.injEq e1 e2 ▸ (by injection hc)))
  | .error _, .ok _ => .isFalse (fun hc => Except.noConfusion hc)
  | .ok _, .error _ => .isFalse (fun hc => Except.noConfusion hc)
  | .ok a1, .ok a2 =>
    if h : a1 = a2 then .isTrue (by rw [h]) else
      .isFalse (fun hc => h (by injection hc))

namespace language_parsers

/-- Modelled from the spec: the Parser Capability Registry of the
`language_parsers` module (not under src/) — an immutable mapping from a
finite set of recognized file extensions to strategy handles. -/
def registry : List (String × StrategyHandle) :=
  [(".c", .cpp), (".h", .cpp), (".cc", .cpp), (".cpp", .cpp), (".java", .java)]

/-- Whether `suffix` is a suffix of `s`, computed on the underlying
character lists. -/
def strEndsWith (s suffix : String) : Bool :=
  suffix.data.reverse.isPrefixOf s.data.reverse

/-- Modelled from the spec: `language_parsers.get_parser_class` (not under
src/) resolves a strategy for a file identifier by extension — a pure
function of the identifier, returning `none` when no registered strategy
claims it. -/
def get_parser_class (filename : String) : Option StrategyHandle :=
  (registry.find? (fun q => strEndsWith filename q.1)).map (fun q => q.2)

/-- Overlap of two 1-indexed inclusive line ranges (spec §4.3). -/
def rangesOverlap (a b : Int × Int) : Bool :=
  decide (a.1 ≤ b.2) && decide (b.1 ≤ a.2)

/-- Modelled from the spec: whether a function span is kept given the
affected ranges — an empty range list keeps every span; otherwise the
span's inclusive line extent must overlap at least one range. -/
def spanAffected (ranges : List (Int × Int)) (s : RawFunctionSpan) : Bool :=
  ranges.isEmpty || ranges.any (fun r => rangesOverlap (s.startLine, s.endLine) r)

/-- Modelled from the spec: `language_parsers.parse_file` (not under src/)
resolves a strategy for `file_path` — failing with `UnsupportedFileType`
before the filesystem is consulted — then reads the file through `fs`
(failing with `StatusNotOk` when it cannot be opened or read), and returns
the provider's outcome with the function spans filtered against
`functions_line_ranges`. -/
def parse_file (fs : String → Option FileContent) (file_path : String)
    (functions_line_ranges : List (Int × Int)) :
    Except ParserError ParseOutcome :=
  match get_parser_class file_path with
  | none => .error .UnsupportedFileType
  | some _ =>
    match fs file_path with
    | none => .error .StatusNotOk
    | some content =>
      .ok { function_chunks :=
              content.allFunctionSpans.filter (spanAffected functions_line_ranges),
            line_chunk := content.lineData,
            parse_errors := content.diagnostics }

end language_parsers

namespace signature

/-- Modelled from the spec: the Chunk Assembler's `FunctionChunk` — the raw
provider span plus the caller-supplied target label. -/
structure FunctionChunk where
  base : RawFunctionSpan
  target_file : String
deriving DecidableEq, Repr

/-- Modelled from the spec: `signature.create_function_chunk` (not under
src/) wraps one raw span with the target label. -/
def create_function_chunk (chunk_base : RawFunctionSpan)
    (target_file : String) : FunctionChunk :=
  { base := chunk_base, target_file := target_file }

/-- Modelled from the spec: the `LineChunk` — raw line data, the affected
ranges stored verbatim, and the target label. -/
structure LineChunk where
  base : RawLineData
  affected_ranges : List (Int × Int)
  target_file : String
deriving DecidableEq, Repr

/-- Modelled from the spec: `signature.create_line_chunk` (not under src/)
wraps the raw line data with the affected ranges and the target label. -/
def create_line_chunk (line_chunk : RawLineData)
    (affected_line_ranges : List (Int × Int)) (target_file : String) :
    LineChunk :=
  { base := line_chunk, affected_ranges := affected_line_ranges,
    target_file := target_file }

end signature

/-- `is_supported_type` from src/parser.py: returns whether any parser
supports the named file, i.e. whether `get_parser_class` resolves. -/
def is_supported_type (filename : String) : Bool :=
  (language_parsers.get_parser_class filename).isSome

/-- One warning event emitted by `logging.warning` during construction:
tagged with the physical file path, the target label, and the parse
errors, mirroring the arguments of the call at src/parser.py:65. -/
structure WarningEvent where
  file_path : String
  target_file : String
  parse_errors : List ParseDiagnostic
deriving DecidableEq, Repr

/-- The state a constructed `Parser` holds: the assembled function chunks
and the single line chunk (`self._function_chunks`, `self._line_chunk`). -/
structure Parser where
  function_chunks_state : List signature.FunctionChunk
  line_chunk_state : signature.LineChunk
deriving DecidableEq, Repr

/-- The normalization at the top of `Parser.__init__` (src/parser.py:57):
`if not affected_line_ranges: affected_line_ranges = []` — a falsy
argument (`None` or the empty sequence) becomes the empty list. -/
def normalizeRanges (affected_line_ranges : Option (List (Int × Int))) :
    List (Int × Int) :=
  match affected_line_ranges with
  | none => []
  | some l => if l.isEmpty then [] else l

/-- `Parser.__init__` from src/parser.py: normalize the optional ranges,
invoke `language_parsers.parse_file`, surface non-empty `parse_errors` as
one warning tagged with `file_path` and `target_file`, then assemble one
`FunctionChunk` per returned span (in order) and the single `LineChunk`.
Fatal provider errors propagate, producing no chunks. -/
def Parser.init (fs : String → Option FileContent) (file_path : String)
    (target_file : String)
    (affected_line_ranges : Option (List (Int × Int))) :
    Except ParserError (List WarningEvent × Parser) :=
  let ranges := normalizeRanges affected_line_ranges
  match language_parsers.parse_file fs file_path ranges with
  | .error e => .error e
  | .ok results =>
    let warnings : List WarningEvent :=
      if results.parse_errors.isEmpty then []
      else [⟨file_path, target_file, results.parse_errors⟩]
    .ok (warnings,
      { function_chunks_state :=
          results.function_chunks.map
            (fun chunk_base =>
              signature.create_function_chunk chunk_base target_file),
        line_chunk_state :=
          signature.create_line_chunk results.line_chunk ranges target_file })

/-- Accessor `Parser.get_function_chunks` from src/parser.py. -/
def Parser.get_function_chunks (p : Parser) : List signature.FunctionChunk :=
  p.function_chunks_state

/-- Accessor `Parser.get_line_chunk` from src/parser.py. -/
def Parser.get_line_chunk (p : Parser) : signature.LineChunk :=
  p.line_chunk_state

/-! Concrete data used by the witness theorems: a supported file `a.c`
holding three functions at line spans (1,5), (10,15), (20,25), and a
variant whose provider reports one span and two diagnostics. -/

def exLineData : RawLineData := ⟨"tokens of lines 1 to 25"⟩

def exSpan1 : RawFunctionSpan := ⟨1, 5, "f one"⟩

def exSpan2 : RawFunctionSpan := ⟨10, 15, "f two"⟩

def exSpan3 : RawFunctionSpan := ⟨20, 25, "f three"⟩

def exContent : FileContent := ⟨[exSpan1, exSpan2, exSpan3], exLineData, []⟩

def exFs : String → Option FileContent :=
  fun q => if q = "a.c" then some exContent else none

def exContentDiag : FileContent :=
  ⟨[exSpan1], exLineData, [⟨"err one"⟩, ⟨"err two"⟩]⟩

def exFsDiag : String → Option FileContent :=
  fun q => if q = "a.c" then some exContentDiag else none

def exParser12 : Parser :=
  { function_chunks_state := [signature.create_function_chunk exSpan2 "t.c"],
    line_chunk_state := signature.create_line_chunk exLineData [(12, 12)] "t.c" }

def exParserNone : Parser :=
  { function_chunks_state :=
      [signature.create_function_chunk exSpan1 "t.c",
       signature.create_function_chunk exSpan2 "t.c",
       signature.create_function_chunk exSpan3 "t.c"],
    line_chunk_state := signature.create_line_chunk exLineData [] "t.c" }

def exParserDiag : Parser :=
  { function_chunks_state := [signature.create_function_chunk exSpan1 "t.c"],
    line_chunk_state := signature.create_line_chunk exLineData [] "t.c" }

/-! Helper lemmas. -/

/-- `normalizeRanges` is the identity on explicitly supplied lists. -/
theorem normalizeRanges_some (rs : List (Int × Int)) :
    normalizeRanges (some rs) = rs := by
  cases rs <;> simp [normalizeRanges]

/-- The Boolean keep-test, read as a proposition. -/
theorem spanAffected_eq_true_iff (ranges : List (Int × Int))
    (s : RawFunctionSpan) :
    language_parsers.spanAffected ranges s = true ↔
      (ranges = [] ∨ ∃ r ∈ ranges, s.startLine ≤ r.2 ∧ r.1 ≤ s.endLine) := by
  simp [language_parsers.spanAffected, language_parsers.rangesOverlap,
        List.isEmpty_iff, List.any_eq_true]

/-- Inversion of a successful construction: the filesystem yielded some
content, and the stored state is exactly the assembled chunks for it. -/
theorem init_ok_shape (fs : String → Option FileContent) (fp tf : String)
    (rso : Option (List (Int × Int))) (w : List WarningEvent) (p : Parser)
    (hinit : Parser.init fs fp tf rso = .ok (w, p)) :
    ∃ content, fs fp = some content ∧
      p.function_chunks_state =
        (content.allFunctionSpans.filter
            (language_parsers.spanAffected (normalizeRanges rso))).map
          (fun s => signature.create_function_chunk s tf) ∧
      p.line_chunk_state =
        signature.create_line_chunk content.lineData (normalizeRanges rso) tf ∧
      w = (if content.diagnostics.isEmpty then []
           else [⟨fp, tf, content.diagnostics⟩]) := by
  unfold Parser.init language_parsers.parse_file at hinit
  cases hreg : language_parsers.get_parser_class fp with
  | none => rw [hreg] at hinit; simp at hinit
  | some handle =>
    rw [hreg] at hinit
    cases hfs : fs fp with
    | none => rw [hfs] at hinit; simp at hinit
    | some content =>
      rw [hfs] at hinit
      simp only [Except.ok.injEq, Prod.mk.injEq] at hinit
      obtain ⟨hw, hp⟩ := hinit
      exact ⟨content, rfl, by rw [← hp], by rw [← hp], hw.symm⟩

/-- Forward characterization of construction on the success path. -/
theorem init_ok_spec (fs : String → Option FileContent) (fp tf : String)
    (rso : Option (List (Int × Int))) (content : FileContent)
    (hreg : (language_parsers.get_parser_class fp).isSome)
    (hfs : fs fp = some content) :
    Parser.init fs fp tf rso =
      .ok ((if content.diagnostics.isEmpty then []
            else [⟨fp, tf, content.diagnostics⟩]),
        { function_chunks_state :=
            (content.allFunctionSpans.filter
                (language_parsers.spanAffected (normalizeRanges rso))).map
              (fun s => signature.create_function_chunk s tf),
          line_chunk_state :=
            signature.create_line_chunk content.lineData
              (normalizeRanges rso) tf }) := by
  obtain ⟨handle, hh⟩ := Option.isSome_iff_exists.mp hreg
  unfold Parser.init language_parsers.parse_file
  rw [hh, hfs]

/-! Claim theorems. -/

/-- C1: for every constructed Parser, a provider-reported function span
yields a FunctionChunk iff the affected-ranges argument is empty (whole
file affected) or the span's inclusive 1-indexed line extent overlaps at
least one supplied range, where [a1,a2] and [b1,b2] overlap iff
a1 ≤ b2 and b1 ≤ a2. -/
theorem C1_span_kept_iff (fs : String → Option FileContent) (fp tf : String)
    (rs : List (Int × Int)) (content : FileContent)
    (w : List WarningEvent) (p : Parser)
    (hinit : Parser.init fs fp tf (some rs) = .ok (w, p))
    (hfs : fs fp = some content)
    (s : RawFunctionSpan) (hs : s ∈ content.allFunctionSpans) :
    signature.create_function_chunk s tf ∈ p.get_function_chunks ↔
      (rs = [] ∨ ∃ r ∈ rs, s.startLine ≤ r.2 ∧ r.1 ≤ s.endLine) := by
  obtain ⟨c2, hfs2, hfc, hlc, hw⟩ := init_ok_shape fs fp tf (some rs) w p hinit
  rw [hfs] at hfs2
  injection hfs2 with hc
  subst hc
  rw [← spanAffected_eq_true_iff]
  simp [Parser.get_function_chunks, hfc, normalizeRanges_some,
        List.mem_map, List.mem_filter, signature.create_function_chunk, hs]

/-- C1 witness: with ranges [(12,12)], the span (10,15) is kept. -/
theorem C1_span_kept_iff_witness :
    signature.create_function_chunk exSpan2 "t.c" ∈
        exParser12.get_function_chunks ↔
      ([((12 : Int), (12 : Int))] = [] ∨
        ∃ r ∈ [((12 : Int), (12 : Int))],
          exSpan2.startLine ≤ r.2 ∧ r.1 ≤ exSpan2.endLine) :=
  C1_span_kept_iff exFs "a.c" "t.c" [(12, 12)] exContent [] exParser12
    (by decide) (by decide) exSpan2 (by decide)

/-- C2: every successful construction stores the single line chunk,
returned by get_line_chunk, whose affected_ranges equals the supplied list
verbatim and whose label is the target file. -/
theorem C2_line_chunk_verbatim (fs : String → Option FileContent)
    (fp tf : String) (rs : List (Int × Int))
    (w : List WarningEvent) (p : Parser)
    (hinit : Parser.init fs fp tf (some rs) = .ok (w, p)) :
    p.get_line_chunk.affected_ranges = rs ∧
      p.get_line_chunk.target_file = tf := by
  obtain ⟨content, hfs, hfc, hlc, hw⟩ := init_ok_shape fs fp tf (some rs) w p hinit
  rw [Parser.get_line_chunk, hlc, normalizeRanges_some]
  exact ⟨rfl, rfl⟩

/-- C2 witness at the concrete construction with ranges [(12,12)]. -/
theorem C2_line_chunk_verbatim_witness :
    exParser12.get_line_chunk.affected_ranges = [((12 : Int), (12 : Int))] ∧
      exParser12.get_line_chunk.target_file = "t.c" :=
  C2_line_chunk_verbatim exFs "a.c" "t.c" [(12, 12)] [] exParser12 (by decide)

/-- C3: on a file identifier no strategy claims, is_supported_type is
false and construction fails with UnsupportedFileType for every
filesystem, target label and range argument — the file content is never
consulted. -/
theorem C3_unsupported (fp : String)
    (hns : is_supported_type fp = false)
    (fs : String → Option FileContent) (tf : String)
    (rso : Option (List (Int × Int))) :
    Parser.init fs fp tf rso = .error .UnsupportedFileType := by
  cases hreg : language_parsers.get_parser_class fp with
  | none =>
    unfold Parser.init language_parsers.parse_file
    rw [hreg]
  | some handle =>
    exfalso
    rw [is_supported_type, hreg] at hns
    exact Bool.noConfusion hns

/-- C3 witness: "foo.unknownext" is unsupported; even a filesystem that
would yield content produces UnsupportedFileType. -/
theorem C3_unsupported_witness :
    is_supported_type "foo.unknownext" = false ∧
      Parser.init (fun _ => some exContent) "foo.unknownext" "t.c" none =
        .error .UnsupportedFileType :=
  ⟨by decide,
   C3_unsupported "foo.unknownext" (by decide)
     (fun _ => some exContent) "t.c" none⟩

/-- C4: non-empty provider diagnostics are surfaced as one warning tagged
with the physical path and target label, and construction still completes:
every kept span becomes a FunctionChunk and the line chunk is produced. -/
theorem C4_diagnostics_nonfatal (fs : String → Option FileContent)
    (fp tf : String) (rso : Option (List (Int × Int))) (content : FileContent)
    (hreg : (language_parsers.get_parser_class fp).isSome)
    (hfs : fs fp = some content)
    (hd : content.diagnostics ≠ []) :
    Parser.init fs fp tf rso =
      .ok ([⟨fp, tf, content.diagnostics⟩],
        { function_chunks_state :=
            (content.allFunctionSpans.filter
                (language_parsers.spanAffected (normalizeRanges rso))).map
              (fun s => signature.create_function_chunk s tf),
          line_chunk_state :=
            signature.create_line_chunk content.lineData
              (normalizeRanges rso) tf }) := by
  rw [init_ok_spec fs fp tf rso content hreg hfs]
  simp [List.isEmpty_iff, hd]

/-- C4 witness: one span plus two diagnostics yields one FunctionChunk,
the LineChunk, and both diagnostics surfaced in the warning. -/
theorem C4_diagnostics_nonfatal_witness :
    exContentDiag.diagnostics = [⟨"err one"⟩, ⟨"err two"⟩] ∧
      Parser.init exFsDiag "a.c" "t.c" (some []) =
        .ok ([⟨"a.c", "t.c", exContentDiag.diagnostics⟩], exParserDiag) ∧
      exParserDiag.get_function_chunks.length = 1 := by
  have h := C4_diagnostics_nonfatal exFsDiag "a.c" "t.c" (some [])
    exContentDiag (by decide) (by decide) (by decide)
  refine ⟨by decide, ?_, by decide⟩
  rw [h]
  decide

/-- C5: when strategy resolution succeeds but the file cannot be read,
construction fails with StatusNotOk and no chunk-carrying result is
observable. -/
theorem C5_io_failure (fs : String → Option FileContent) (fp tf : String)
    (rso : Option (List (Int × Int)))
    (hreg : (language_parsers.get_parser_class fp).isSome)
    (hfs : fs fp = none) :
    Parser.init fs fp tf rso = .error .StatusNotOk ∧
      ∀ w p, Parser.init fs fp tf rso ≠ .ok (w, p) := by
  obtain ⟨handle, hh⟩ := Option.isSome_iff_exists.mp hreg
  have herr : Parser.init fs fp tf rso = .error .StatusNotOk := by
    unfold Parser.init language_parsers.parse_file
    rw [hh, hfs]
  exact ⟨herr, fun w p hc => Except.noConfusion (herr ▸ hc)⟩

/-- C5 witness: an unreadable supported file aborts with StatusNotOk. -/
theorem C5_io_failure_witness :
    Parser.init (fun _ => none) "a.c" "t.c" none = .error .StatusNotOk :=
  (C5_io_failure (fun _ => none) "a.c" "t.c" none (by decide) rfl).1

/-- C6: the function chunks are exactly the kept provider spans, mapped
one-to-one and in the provider's order; with empty ranges the count equals
the number of spans the provider reports. -/
theorem C6_order_preserving (fs : String → Option FileContent)
    (fp tf : String) (rs : List (Int × Int)) (content : FileContent)
    (w : List WarningEvent) (p : Parser)
    (hfs : fs fp = some content)
    (hinit : Parser.init fs fp tf (some rs) = .ok (w, p)) :
    p.get_function_chunks =
      (content.allFunctionSpans.filter
          (language_parsers.spanAffected rs)).map
        (fun s => signature.create_function_chunk s tf) ∧
    (rs = [] →
      p.get_function_chunks.length = content.allFunctionSpans.length) := by
  obtain ⟨c2, hfs2, hfc, hlc, hw⟩ := init_ok_shape fs fp tf (some rs) w p hinit
  rw [hfs] at hfs2
  injection hfs2 with hc
  subst hc
  constructor
  · rw [Parser.get_function_chunks, hfc, normalizeRanges_some]
  · rintro rfl
    simp [Parser.get_function_chunks, hfc, normalizeRanges_some,
          language_parsers.spanAffected]

/-- C6 witness: with ranges [(12,12)] exactly the middle span is kept in
order, and with empty ranges all three spans are kept. -/
theorem C6_order_preserving_witness :
    exParser12.get_function_chunks =
      (exContent.allFunctionSpans.filter
          (language_parsers.spanAffected [(12, 12)])).map
        (fun s => signature.create_function_chunk s "t.c") ∧
    exParserNone.get_function_chunks.length =
      exContent.allFunctionSpans.length :=
  ⟨(C6_order_preserving exFs "a.c" "t.c" [(12, 12)] exContent [] exParser12
      (by decide) (by decide)).1,
   (C6_order_preserving exFs "a.c" "t.c" [] exContent [] exParserNone
      (by decide) (by decide)).2 rfl⟩

/-- C7: construction is deterministic — two successful constructions on
identical arguments and filesystem yield equal chunk sequences and equal
line chunks. -/
theorem C7_deterministic (fs : String → Option FileContent) (fp tf : String)
    (rso : Option (List (Int × Int)))
    (w1 : List WarningEvent) (p1 : Parser)
    (w2 : List WarningEvent) (p2 : Parser)
    (h1 : Parser.init fs fp tf rso = .ok (w1, p1))
    (h2 : Parser.init fs fp tf rso = .ok (w2, p2)) :
    p1.get_function_chunks = p2.get_function_chunks ∧
      p1.get_line_chunk = p2.get_line_chunk := by
  rw [h1] at h2
  simp only [Except.ok.injEq, Prod.mk.injEq] at h2
  rw [h2.2]
  exact ⟨rfl, rfl⟩

/-- C7 witness at the concrete construction. -/
theorem C7_deterministic_witness :
    exParser12.get_function_chunks = exParser12.get_function_chunks ∧
      exParser12.get_line_chunk = exParser12.get_line_chunk :=
  C7_deterministic exFs "a.c" "t.c" (some [(12, 12)]) [] exParser12
    [] exParser12 (by decide) (by decide)

/-- C8: is_supported_type returns true exactly when strategy resolution
succeeds for the identifier; it is a pure function of the string. -/
theorem C8_supported_iff_resolves (filename : String) :
    is_supported_type filename = true ↔
      ∃ handle, language_parsers.get_parser_class filename = some handle := by
  simp [is_supported_type, Option.isSome_iff_exists]

/-- C9: every chunk of one successful construction — every FunctionChunk
and the single LineChunk — carries the caller-supplied target label, never
the physical path. -/
theorem C9_uniform_label (fs : String → Option FileContent) (fp tf : String)
    (rso : Option (List (Int × Int))) (w : List WarningEvent) (p : Parser)
    (hinit : Parser.init fs fp tf rso = .ok (w, p)) :
    (∀ c ∈ p.get_function_chunks, c.target_file = tf) ∧
      p.get_line_chunk.target_file = tf := by
  obtain ⟨content, hfs, hfc, hlc, hw⟩ := init_ok_shape fs fp tf rso w p hinit
  constructor
  · intro c hc
    rw [Parser.get_function_chunks, hfc] at hc
    simp only [List.mem_map, signature.create_function_chunk] at hc
    obtain ⟨x, hx, rfl⟩ := hc
    rfl
  · rw [Parser.get_line_chunk, hlc]
    rfl

/-- C9 witness at the concrete construction. -/
theorem C9_uniform_label_witness :
    (signature.create_function_chunk exSpan2 "t.c").target_file = "t.c" ∧
      exParser12.get_line_chunk.target_file = "t.c" :=
  ⟨(C9_uniform_label exFs "a.c" "t.c" (some [(12, 12)]) [] exParser12
      (by decide)).1 (signature.create_function_chunk exSpan2 "t.c")
      (by decide),
   (C9_uniform_label exFs "a.c" "t.c" (some [(12, 12)]) [] exParser12
      (by decide)).2⟩

/-- C10: passing no ranges is equivalent to passing the empty list — both
are normalized to [] before the provider is invoked — and the resulting
line chunk stores [] as its affected ranges. -/
theorem C10_none_normalizes (fs : String → Option FileContent)
    (fp tf : String) :
    Parser.init fs fp tf none = Parser.init fs fp tf (some []) ∧
      ∀ w p, Parser.init fs fp tf none = .ok (w, p) →
        p.get_line_chunk.affected_ranges = [] := by
  refine ⟨rfl, fun w p h => ?_⟩
  obtain ⟨content, hfs, hfc, hlc, hw⟩ := init_ok_shape fs fp tf none w p h
  rw [Parser.get_line_chunk, hlc]
  rfl

/-- C10 witness at the concrete construction with no ranges. -/
theorem C10_none_normalizes_witness :
    Parser.init exFs "a.c" "t.c" none = Parser.init exFs "a.c" "t.c" (some []) ∧
      exParserNone.get_line_chunk.affected_ranges = [] :=
  ⟨(C10_none_normalizes exFs "a.c" "t.c").1,
   (C10_none_normalizes exFs "a.c" "t.c").2 [] exParserNone (by decide)⟩

end Vanir
